import Mathlib

/-!
Verification of the grid-trading control plane (grid1.3).

Shallow embedding of the Python sources under `src/core/services/grid/`:
prices and amounts (`Decimal` in the source) are modelled as exact
rationals (`ℚ`), machine integers as `ℤ`/`ℕ`, and each translated
function carries the name of its Python counterpart.  Stateful code is
modelled as explicit state-passing functions.
-/

/-- Grid type enum, from `models/grid_config.py` (`GridType`). -/
inductive GridType where
  | LONG
  | SHORT
  | MARTINGALE_LONG
  | MARTINGALE_SHORT
  | FOLLOW_LONG
  | FOLLOW_SHORT
deriving DecidableEq, Repr

/-- The membership test `grid_type in [LONG, FOLLOW_LONG, MARTINGALE_LONG]`
used throughout the source to select the Long branch. -/
def isLongVariant : GridType → Bool
  | .LONG => true
  | .FOLLOW_LONG => true
  | .MARTINGALE_LONG => true
  | _ => false

/-- The membership test `grid_type in [SHORT, FOLLOW_SHORT, MARTINGALE_SHORT]`. -/
def isShortVariant : GridType → Bool
  | .SHORT => true
  | .FOLLOW_SHORT => true
  | .MARTINGALE_SHORT => true
  | _ => false

/-- Python's `round()` on `Decimal`: round half to even (banker's rounding). -/
def roundHalfEven (q : ℚ) : ℤ :=
  if q - ⌊q⌋ < 1/2 then ⌊q⌋
  else if 1/2 < q - ⌊q⌋ then ⌊q⌋ + 1
  else if ⌊q⌋ % 2 = 0 then ⌊q⌋ else ⌊q⌋ + 1

/-- `Decimal.quantize(..., rounding=ROUND_HALF_UP)` rounds half away from
zero; this is the integer rounding it applies to the scaled value. -/
def roundHalfUpAway (q : ℚ) : ℤ :=
  if 0 ≤ q then ⌊q + 1/2⌋ else -⌊-q + 1/2⌋

/-- `raw_amount.quantize(Decimal(0.1) ** precision, rounding=ROUND_HALF_UP)`. -/
def quantizeHalfUp (precision : ℕ) (q : ℚ) : ℚ :=
  (roundHalfUpAway (q * 10 ^ precision) : ℚ) / 10 ^ precision

/-- Grid configuration, from `models/grid_config.py` (`GridConfig`); only the
fields the verified operations read. -/
structure GridConfig where
  grid_type : GridType
  grid_interval : ℚ
  order_amount : ℚ
  lower_price : ℚ
  upper_price : ℚ
  grid_count : ℕ
  martingale_increment : Option ℚ
  quantity_precision : ℕ
  fee_rate : ℚ
deriving DecidableEq, Repr

namespace GridConfig

/-- `GridConfig.get_grid_price`: Long variants count up from `lower_price`
(Grid 1 = lowest), Short variants count down from `upper_price`
(Grid 1 = highest). -/
def get_grid_price (cfg : GridConfig) (grid_index : ℤ) : ℚ :=
  if isLongVariant cfg.grid_type then
    cfg.lower_price + ((grid_index : ℚ) - 1) * cfg.grid_interval
  else
    cfg.upper_price - ((grid_index : ℚ) - 1) * cfg.grid_interval

/-- `GridConfig.get_grid_index_by_price`: distance in intervals from the
Grid-1 boundary, rounded with Python's `round()` (half-even), plus one,
clamped into `[1, grid_count]` by `max(1, min(index, grid_count))`. -/
def get_grid_index_by_price (cfg : GridConfig) (price : ℚ) : ℤ :=
  let index :=
    if isLongVariant cfg.grid_type then
      roundHalfEven ((price - cfg.lower_price) / cfg.grid_interval) + 1
    else
      roundHalfEven ((cfg.upper_price - price) / cfg.grid_interval) + 1
  max 1 (min index (cfg.grid_count : ℤ))

/-- `GridConfig.is_martingale_mode`: the increment is set and positive. -/
def is_martingale_mode (cfg : GridConfig) : Bool :=
  match cfg.martingale_increment with
  | some m => decide (0 < m)
  | none => false

/-- `GridConfig.get_grid_order_amount`: flat `order_amount`, or in martingale
mode `order_amount + (grid_count - i) * increment` for Long variants and
`order_amount + (i - 1) * increment` otherwise. -/
def get_grid_order_amount (cfg : GridConfig) (grid_index : ℤ) : ℚ :=
  match cfg.martingale_increment with
  | some m =>
    if 0 < m then
      if isLongVariant cfg.grid_type then
        cfg.order_amount + ((cfg.grid_count : ℚ) - (grid_index : ℚ)) * m
      else
        cfg.order_amount + ((grid_index : ℚ) - 1) * m
    else cfg.order_amount
  | none => cfg.order_amount

/-- `GridConfig.get_formatted_grid_order_amount`: the raw amount quantized to
`quantity_precision` decimals with `ROUND_HALF_UP`. -/
def get_formatted_grid_order_amount (cfg : GridConfig) (grid_index : ℤ) : ℚ :=
  quantizeHalfUp cfg.quantity_precision (cfg.get_grid_order_amount grid_index)

end GridConfig

/-- `OrderHealthChecker._calculate_expected_position`
(`implementations/order_health_checker.py`): expected position implied by the
remaining open orders.  Long variants: `filled = total_grids - buys`; in
martingale mode sum the per-grid formatted amount over
`range(grid_count - filled + 1, grid_count + 1)`, otherwise `filled *
order_amount`.  Short variants mirror with sells, summing
`range(1, filled + 1)` and negating. -/
def calc_expected_position (cfg : GridConfig)
    (total_grids current_buy_orders current_sell_orders : ℕ) : ℚ :=
  if isLongVariant cfg.grid_type then
    let filled_buy_count : ℤ := (total_grids : ℤ) - (current_buy_orders : ℤ)
    if cfg.is_martingale_mode then
      let start_grid_id : ℤ := (cfg.grid_count : ℤ) - filled_buy_count + 1
      ∑ gid in Finset.Icc start_grid_id (cfg.grid_count : ℤ),
        cfg.get_formatted_grid_order_amount gid
    else (filled_buy_count : ℚ) * cfg.order_amount
  else if isShortVariant cfg.grid_type then
    let filled_sell_count : ℤ := (total_grids : ℤ) - (current_sell_orders : ℤ)
    if cfg.is_martingale_mode then
      -(∑ gid in Finset.Icc (1 : ℤ) filled_sell_count,
        cfg.get_formatted_grid_order_amount gid)
    else -((filled_sell_count : ℚ) * cfg.order_amount)
  else 0

theorem roundHalfEven_intCast (n : ℤ) : roundHalfEven (n : ℚ) = n := by
  simp [roundHalfEven]

theorem floor_le_roundHalfEven (q : ℚ) : ⌊q⌋ ≤ roundHalfEven q := by
  unfold roundHalfEven
  split_ifs <;> omega

theorem roundHalfEven_zero : roundHalfEven 0 = 0 := by
  simp [roundHalfEven]

/-- Validity facts used for the geometry claims: positive interval, at least
one grid, and `grid_count` no larger than the number of whole intervals in
the corridor.  `__post_init__` guarantees the last fact for fixed grids via
`grid_count = int(price_range / grid_interval)`, and
`update_price_range_for_follow_mode` makes the corridor exactly
`grid_count * grid_interval` wide for Follow grids. -/
def GridConfig.geometry_valid (cfg : GridConfig) : Prop :=
  0 < cfg.grid_interval ∧ 1 ≤ cfg.grid_count ∧
    (cfg.grid_count : ℤ) ≤ ⌊(cfg.upper_price - cfg.lower_price) / cfg.grid_interval⌋

/-- C5: for every valid configuration, `get_grid_index_by_price` inverts
`get_grid_price` on `[1, grid_count]`, always lands in `[1, grid_count]`,
and maps `lower_price` to 1 for Long variants and to `grid_count` for
Short variants. -/
theorem grid_index_price_roundtrip (cfg : GridConfig)
    (hv : cfg.geometry_valid) :
    (∀ i : ℤ, 1 ≤ i → i ≤ (cfg.grid_count : ℤ) →
      cfg.get_grid_index_by_price (cfg.get_grid_price i) = i)
    ∧ (∀ p : ℚ, 1 ≤ cfg.get_grid_index_by_price p ∧
        cfg.get_grid_index_by_price p ≤ (cfg.grid_count : ℤ))
    ∧ (isLongVariant cfg.grid_type = true →
        cfg.get_grid_index_by_price cfg.lower_price = 1)
    ∧ (isLongVariant cfg.grid_type = false →
        cfg.get_grid_index_by_price cfg.lower_price = (cfg.grid_count : ℤ)) := by
  obtain ⟨hι, hN, hcount⟩ := hv
  have hNZ : (1 : ℤ) ≤ (cfg.grid_count : ℤ) := by exact_mod_cast hN
  have hι' : cfg.grid_interval ≠ 0 := ne_of_gt hι
  have hre : ∀ i : ℤ, roundHalfEven (((i : ℚ) - 1) * cfg.grid_interval
      / cfg.grid_interval) = i - 1 := by
    intro i
    have hq : ((i : ℚ) - 1) * cfg.grid_interval / cfg.grid_interval
        = ((i - 1 : ℤ) : ℚ) := by
      push_cast
      field_simp
    rw [hq, roundHalfEven_intCast]
  refine ⟨?_, ?_, ?_, ?_⟩
  · intro i h1 h2
    cases hL : isLongVariant cfg.grid_type <;>
      simp [GridConfig.get_grid_index_by_price, GridConfig.get_grid_price,
        hL, hre i] <;>
      omega
  · intro p
    cases hL : isLongVariant cfg.grid_type <;>
      simp [GridConfig.get_grid_index_by_price, hL] <;>
      omega
  · intro hL
    simp [GridConfig.get_grid_index_by_price, hL, roundHalfEven_zero]
  · intro hL
    have hge := floor_le_roundHalfEven
      ((cfg.upper_price - cfg.lower_price) / cfg.grid_interval)
    simp [GridConfig.get_grid_index_by_price, hL]
    omega

/-- Concrete configuration exercising the geometry claims: the common Long
setup of the spec's end-to-end scenarios. -/
def cfgGeom : GridConfig :=
  { grid_type := .LONG, grid_interval := 1/10, order_amount := 1,
    lower_price := 100, upper_price := 110, grid_count := 100,
    martingale_increment := none, quantity_precision := 3,
    fee_rate := 1/10000 }

/-- Witness for C5 at the concrete configuration `cfgGeom`. -/
theorem grid_index_price_roundtrip_witness :
    cfgGeom.get_grid_index_by_price (cfgGeom.get_grid_price 50) = 50 ∧
    cfgGeom.get_grid_index_by_price cfgGeom.lower_price = 1 := by
  have h := grid_index_price_roundtrip cfgGeom
    ⟨by norm_num [cfgGeom], by norm_num [cfgGeom], by norm_num [cfgGeom]⟩
  exact ⟨h.1 50 (by norm_num) (by norm_num [cfgGeom]), h.2.2.1 rfl⟩

/-- C6: in martingale mode the per-grid amount is
`order_amount + (grid_count - i) * increment` for Long variants, strictly
decreasing in `i`, and the mirrored `order_amount + (i - 1) * increment`,
strictly increasing, for the Short variants (the source's `else` branch). -/
theorem martingale_amount_formula (cfg : GridConfig) (m : ℚ)
    (hm : cfg.martingale_increment = some m) (hpos : 0 < m) :
    (isLongVariant cfg.grid_type = true →
      (∀ i : ℤ, cfg.get_grid_order_amount i
          = cfg.order_amount + ((cfg.grid_count : ℚ) - (i : ℚ)) * m)
      ∧ ∀ i j : ℤ, i < j →
          cfg.get_grid_order_amount j < cfg.get_grid_order_amount i)
    ∧ (isLongVariant cfg.grid_type = false →
      (∀ i : ℤ, cfg.get_grid_order_amount i
          = cfg.order_amount + ((i : ℚ) - 1) * m)
      ∧ ∀ i j : ℤ, i < j →
          cfg.get_grid_order_amount i < cfg.get_grid_order_amount j) := by
  constructor
  · intro hL
    have hfor : ∀ i : ℤ, cfg.get_grid_order_amount i
        = cfg.order_amount + ((cfg.grid_count : ℚ) - (i : ℚ)) * m := by
      intro i
      simp [GridConfig.get_grid_order_amount, hm, hpos, hL]
    refine ⟨hfor, ?_⟩
    intro i j hij
    rw [hfor i, hfor j]
    have hij' : (i : ℚ) < (j : ℚ) := by exact_mod_cast hij
    have := mul_lt_mul_of_pos_right
      (sub_lt_sub_left hij' (cfg.grid_count : ℚ)) hpos
    linarith
  · intro hL
    have hfor : ∀ i : ℤ, cfg.get_grid_order_amount i
        = cfg.order_amount + ((i : ℚ) - 1) * m := by
      intro i
      simp [GridConfig.get_grid_order_amount, hm, hpos, hL]
    refine ⟨hfor, ?_⟩
    intro i j hij
    rw [hfor i, hfor j]
    have hij' : (i : ℚ) < (j : ℚ) := by exact_mod_cast hij
    have := mul_lt_mul_of_pos_right (sub_lt_sub_right hij' (1 : ℚ)) hpos
    linarith

/-- Concrete martingale configuration for the witnesses. -/
def cfgMart : GridConfig :=
  { grid_type := .MARTINGALE_LONG, grid_interval := 1/10, order_amount := 1,
    lower_price := 100, upper_price := 120, grid_count := 200,
    martingale_increment := some (1/1000), quantity_precision := 3,
    fee_rate := 1/10000 }

/-- Witness for C6 at `cfgMart`: Grid 1 gets
`1 + 199/1000` and the amount at Grid 200 is strictly below the amount at
Grid 1. -/
theorem martingale_amount_formula_witness :
    cfgMart.get_grid_order_amount 1 = 1 + (200 - 1) * (1/1000) ∧
    cfgMart.get_grid_order_amount 200 < cfgMart.get_grid_order_amount 1 := by
  have h := (martingale_amount_formula cfgMart (1/1000) rfl (by norm_num)).1 rfl
  refine ⟨?_, h.2 1 200 (by norm_num)⟩
  rw [h.1 1]
  norm_num [cfgMart]

theorem short_not_long {t : GridType} (h : isShortVariant t = true) :
    isLongVariant t = false := by
  cases t <;> simp_all [isShortVariant, isLongVariant]

/-- C7: the health checker's expected position.  For a Long grid with
`buys ≤ grid_count` open buy orders it equals the sum, over the
`grid_count - buys` assumed-filled grids `[buys + 1, grid_count]`, of each
grid's per-grid amount individually rounded half-up to
`quantity_precision` (martingale mode), and
`(grid_count - buys) * order_amount` in flat mode; the Short case is the
negated mirror over `[1, grid_count - sells]`.  Rounding is applied per
grid inside the sum, never to the sum. -/
theorem expected_position_per_grid_rounding (cfg : GridConfig)
    (buys sells : ℕ) (hb : buys ≤ cfg.grid_count) (hs : sells ≤ cfg.grid_count) :
    (isLongVariant cfg.grid_type = true →
      (calc_expected_position cfg cfg.grid_count buys sells =
        if cfg.is_martingale_mode then
          ∑ gid in Finset.Icc ((buys : ℤ) + 1) (cfg.grid_count : ℤ),
            cfg.get_formatted_grid_order_amount gid
        else ((cfg.grid_count - buys : ℕ) : ℚ) * cfg.order_amount)
      ∧ (Finset.Icc ((buys : ℤ) + 1) (cfg.grid_count : ℤ)).card
          = cfg.grid_count - buys)
    ∧ (isShortVariant cfg.grid_type = true →
      (calc_expected_position cfg cfg.grid_count buys sells =
        if cfg.is_martingale_mode then
          -(∑ gid in Finset.Icc (1 : ℤ) ((cfg.grid_count - sells : ℕ) : ℤ),
            cfg.get_formatted_grid_order_amount gid)
        else -(((cfg.grid_count - sells : ℕ) : ℚ) * cfg.order_amount))
      ∧ (Finset.Icc (1 : ℤ) ((cfg.grid_count - sells : ℕ) : ℤ)).card
          = cfg.grid_count - sells) := by
  constructor
  · intro hL
    constructor
    · have hicc : (cfg.grid_count : ℤ)
          - ((cfg.grid_count : ℤ) - (buys : ℤ)) + 1 = (buys : ℤ) + 1 := by
        ring
      have hflat : ((cfg.grid_count : ℤ) - (buys : ℤ) : ℚ)
          = ((cfg.grid_count - buys : ℕ) : ℚ) := by
        push_cast [Nat.cast_sub hb]
        ring
      by_cases hM : cfg.is_martingale_mode = true
      · simp only [calc_expected_position, hL, if_true, hM, hicc]
      · simp only [calc_expected_position, hL, if_true, hM, if_false,
          Bool.not_eq_true, hflat]
        rw [Nat.cast_sub hb]
        push_cast
        ring
    · rw [Int.card_Icc]
      omega
  · intro hS
    have hL := short_not_long hS
    constructor
    · have hicc : ((cfg.grid_count - sells : ℕ) : ℤ)
          = (cfg.grid_count : ℤ) - (sells : ℤ) := by
        omega
      have hflat : ((cfg.grid_count : ℤ) - (sells : ℤ) : ℚ)
          = ((cfg.grid_count - sells : ℕ) : ℚ) := by
        push_cast [Nat.cast_sub hs]
        ring
      by_cases hM : cfg.is_martingale_mode = true
      · simp only [calc_expected_position, hL, hS, if_true, if_false,
          Bool.false_eq_true, hM, hicc]
      · simp only [calc_expected_position, hL, hS, if_true, if_false,
          Bool.false_eq_true, hM, hflat]
        rw [Nat.cast_sub hs]
        push_cast
        ring
    · rw [Int.card_Icc]
      omega

/-- Witness for C7 at `cfgMart` with 150 open buys: the expected position is
the per-grid-rounded sum over the 50 assumed-filled grids 151..200. -/
theorem expected_position_per_grid_rounding_witness :
    calc_expected_position cfgMart cfgMart.grid_count 150 200 =
      ∑ gid in Finset.Icc (151 : ℤ) (200 : ℤ),
        cfgMart.get_formatted_grid_order_amount gid ∧
    (Finset.Icc (151 : ℤ) (200 : ℤ)).card = 50 := by
  have h := (expected_position_per_grid_rounding cfgMart 150 200
    (by norm_num [cfgMart]) (by norm_num [cfgMart])).1 rfl
  have hM : cfgMart.is_martingale_mode = true := by
    norm_num [GridConfig.is_martingale_mode, cfgMart]
  constructor
  · rw [h.1, if_pos hM]
    norm_num [cfgMart]
  · have hc := h.2
    norm_num [cfgMart] at hc
    exact hc

/-- Inputs of `PositionMonitor._check_position_anomaly`
(`coordinator/position_monitor.py`): the monitor's initial-phase state and
the cached previous position `_last_position_size`.  `phase_duration` is
`_initial_phase_duration` (60 seconds by default) and `elapsed` the time
since `_initial_phase_start_time`. -/
structure AnomalyState where
  initial_phase : Bool
  elapsed : ℚ
  phase_duration : ℚ
  last_position : ℚ
deriving DecidableEq, Repr

/-- Observable outcome of `_check_position_anomaly`: the updated
`_initial_phase` flag, whether the change-rate warning fired, and whether
the emergency-stop branch executed (the branch that assigns
`coordinator.is_emergency_stopped = True` and `coordinator.is_paused =
True`). -/
structure AnomalyResult where
  initial_phase : Bool
  warned : Bool
  tripped : Bool
deriving DecidableEq, Repr

/-- `PositionMonitor._check_position_anomaly`: during the initial phase the
check is skipped (ending the phase once `elapsed >= duration`); positions
with absolute value under one `order_amount` are normalized to zero; a zero
(normalized) previous position skips the check; otherwise the change
percentage `|new - last| / |last| * 100` is compared against the alert
threshold 100 and the emergency branch fires when `|new| > last * 10 > 0`
(all on normalized values). -/
def check_position_anomaly (cfg : GridConfig) (st : AnomalyState)
    (new_position : ℚ) : AnomalyResult :=
  if st.initial_phase ∧ st.elapsed < st.phase_duration then
    { initial_phase := true, warned := false, tripped := false }
  else
    let normalized_last :=
      if |st.last_position| < cfg.order_amount then 0 else st.last_position
    let normalized_new :=
      if |new_position| < cfg.order_amount then 0 else new_position
    if normalized_last = 0 then
      { initial_phase := false, warned := false, tripped := false }
    else
      let change_percentage :=
        |normalized_new - normalized_last| / |normalized_last| * 100
      let warned := decide (100 < change_percentage)
      let expected_max := |normalized_last| * 10
      if |normalized_new| > expected_max ∧ expected_max > 0 then
        { initial_phase := false, warned := warned, tripped := true }
      else
        { initial_phase := false, warned := warned, tripped := false }

/-- Coordinator flags as seen by the monitor: the dynamically-created
attributes `is_emergency_stopped` and `is_paused` (see `MonitorCoordinator`
below for the full model).  The emergency branch of
`_check_position_anomaly` assigns both. -/
structure AnomalyFlags where
  is_emergency_stopped : Bool
  is_paused : Bool
deriving DecidableEq, Repr

/-- Effect of `_check_position_anomaly` on the coordinator flags: the
emergency branch sets `is_emergency_stopped = True` and `is_paused = True`;
no other branch touches them. -/
def apply_anomaly (f : AnomalyFlags) (r : AnomalyResult) : AnomalyFlags :=
  if r.tripped then { is_emergency_stopped := true, is_paused := true } else f

/-- C8: anomaly detection.  (1) While the initial phase is on and fewer than
60 seconds (`phase_duration` = 60) have elapsed, nothing is raised and no
flag is touched.  (2) A new position below `order_amount` in absolute value
is treated exactly like a zero position.  (3) A previous position below
`order_amount` is treated like a zero previous position, which disables the
check.  (4) Outside the initial phase, with both positions at or above
`order_amount`: the warning fires precisely when the relative change
exceeds 100 percent; if `|new| <= 10 * |last|` the flags are left untouched
(warning only); if `|new| > 10 * |last|` the emergency branch sets both
`is_emergency_stopped` and `is_paused`. -/
theorem position_anomaly_detection (cfg : GridConfig) (st : AnomalyState)
    (new_position : ℚ) (f : AnomalyFlags) :
    (st.initial_phase = true → st.phase_duration = 60 → st.elapsed < 60 →
      check_position_anomaly cfg st new_position
        = { initial_phase := true, warned := false, tripped := false }
      ∧ apply_anomaly f (check_position_anomaly cfg st new_position) = f)
    ∧ (0 < cfg.order_amount → |new_position| < cfg.order_amount →
      check_position_anomaly cfg st new_position
        = check_position_anomaly cfg st 0)
    ∧ (|st.last_position| < cfg.order_amount →
      check_position_anomaly cfg st new_position
        = check_position_anomaly cfg { st with last_position := 0 } new_position
      ∧ (st.initial_phase = false →
        check_position_anomaly cfg st new_position
          = { initial_phase := false, warned := false, tripped := false }))
    ∧ (st.initial_phase = false → 0 < cfg.order_amount →
        cfg.order_amount ≤ |st.last_position| →
        cfg.order_amount ≤ |new_position| →
      ((check_position_anomaly cfg st new_position).warned
          = decide (100 < |new_position - st.last_position|
              / |st.last_position| * 100))
      ∧ (|new_position| ≤ 10 * |st.last_position| →
          apply_anomaly f (check_position_anomaly cfg st new_position) = f)
      ∧ (10 * |st.last_position| < |new_position| →
          apply_anomaly f (check_position_anomaly cfg st new_position)
            = { is_emergency_stopped := true, is_paused := true })) := by
  refine ⟨?_, ?_, ?_, ?_⟩
  · intro hphase hdur helapsed
    have hskip : st.initial_phase ∧ st.elapsed < st.phase_duration :=
      ⟨hphase, by rw [hdur]; exact helapsed⟩
    rw [check_position_anomaly, if_pos hskip]
    exact ⟨rfl, rfl⟩
  · intro hamt hnew
    have hzero : |(0 : ℚ)| < cfg.order_amount := by simpa using hamt
    rw [check_position_anomaly, check_position_anomaly]
    by_cases hskip : st.initial_phase ∧ st.elapsed < st.phase_duration
    · rw [if_pos hskip, if_pos hskip]
    · rw [if_neg hskip, if_neg hskip]
      simp only [if_pos hnew, if_pos hzero]
  · intro hlast
    constructor
    · rw [check_position_anomaly, check_position_anomaly]
      by_cases hskip : st.initial_phase ∧ st.elapsed < st.phase_duration
      · rw [if_pos hskip, if_pos hskip]
      · rw [if_neg hskip, if_neg hskip]
        simp only [if_pos hlast, abs_zero]
        by_cases hamt : (0 : ℚ) < cfg.order_amount
        · simp [hamt]
        · push_neg at hamt
          have : ¬ |(0 : ℚ)| < cfg.order_amount := by
            simp only [abs_zero, not_lt]
            exact hamt
          have hlast0 : st.last_position = 0 := by
            have := abs_nonneg st.last_position
            have := lt_of_lt_of_le hlast hamt
            have : |st.last_position| < 0 := this
            nlinarith [abs_nonneg st.last_position]
          simp [hlast0]
    · intro hphase
      have hskip : ¬ (st.initial_phase ∧ st.elapsed < st.phase_duration) := by
        simp [hphase]
      rw [check_position_anomaly, if_neg hskip]
      simp only [if_pos hlast]
      simp
  · intro hphase hamt hlastge hnewge
    have hskip : ¬ (st.initial_phase ∧ st.elapsed < st.phase_duration) := by
      simp [hphase]
    have hlastlt : ¬ |st.last_position| < cfg.order_amount := not_lt.mpr hlastge
    have hnewlt : ¬ |new_position| < cfg.order_amount := not_lt.mpr hnewge
    have hlast0 : st.last_position ≠ 0 := by
      intro h
      rw [h] at hlastge
      simp at hlastge
      exact absurd hlastge (not_le.mpr hamt)
    have habs : 0 < |st.last_position| := abs_pos.mpr hlast0
    rw [check_position_anomaly, if_neg hskip]
    simp only [if_neg hlastlt, if_neg hnewlt, if_neg hlast0]
    refine ⟨by split_ifs <;> rfl, ?_, ?_⟩
    · intro hbound
      have hcond : ¬ (|new_position| > |st.last_position| * 10
          ∧ |st.last_position| * 10 > 0) := by
        intro hc
        have := hc.1
        linarith
      rw [if_neg hcond]
      simp [apply_anomaly]
    · intro hbound
      have hcond : |new_position| > |st.last_position| * 10
          ∧ |st.last_position| * 10 > 0 := by
        constructor
        · linarith
        · linarith
      rw [if_pos hcond]
      simp [apply_anomaly]

/-- Witness for C8: previous position 5, next poll returns 60 (12 times the
previous value) after the initial phase — the warning fires and the
emergency branch sets both flags (the spec's scenario S6). -/
theorem position_anomaly_detection_witness :
    (check_position_anomaly cfgGeom
        { initial_phase := false, elapsed := 0, phase_duration := 60,
          last_position := 5 } 60).warned = true ∧
    apply_anomaly { is_emergency_stopped := false, is_paused := false }
        (check_position_anomaly cfgGeom
          { initial_phase := false, elapsed := 0, phase_duration := 60,
            last_position := 5 } 60)
      = { is_emergency_stopped := true, is_paused := true } := by
  have h := (position_anomaly_detection cfgGeom
    { initial_phase := false, elapsed := 0, phase_duration := 60,
      last_position := 5 } 60
    { is_emergency_stopped := false, is_paused := false }).2.2.2
    rfl (by norm_num [cfgGeom]) (by norm_num [cfgGeom]) (by norm_num [cfgGeom])
  refine ⟨?_, h.2.2 (by norm_num)⟩
  rw [h.1]
  norm_num

/-- Order side enum (`GridOrderSide` in the models package). -/
inductive GridOrderSide where
  | BUY
  | SELL
deriving DecidableEq, Repr

/-- Order status enum (`GridOrderStatus`).  Modelled from the spec:
the models file is not under the sources; §3 gives the statuses
Pending, Open, Filled, Cancelled, Failed. -/
inductive GridOrderStatus where
  | PENDING
  | OPEN
  | FILLED
  | CANCELLED
  | FAILED
deriving DecidableEq, Repr

/-- Grid order record (`GridOrder`).  Modelled from the spec (§3, Grid
Order): the models file is not under the sources; fields as listed there,
restricted to the ones the verified operations read. -/
structure GridOrder where
  order_id : String
  grid_id : ℤ
  side : GridOrderSide
  price : ℚ
  amount : ℚ
  status : GridOrderStatus
  filled_price : Option ℚ
  filled_amount : Option ℚ
deriving DecidableEq, Repr

/-- `GridOrder.is_filled`.  Modelled from the spec: the order reached the
`Filled` status. -/
def GridOrder.is_filled (o : GridOrder) : Bool :=
  o.status == .FILLED

/-- `GridOrder.is_buy_order`. -/
def GridOrder.is_buy_order (o : GridOrder) : Bool :=
  o.side == .BUY

/-- Python's `x or y` on an optional `Decimal`: `None` and `Decimal(0)` are
both falsy, so they fall through to the default. -/
def pyOrDecimal (x : Option ℚ) (default : ℚ) : ℚ :=
  match x with
  | none => default
  | some v => if v = 0 then default else v

/-- `GridCoordinator._should_place_reverse_order_in_scalping`
(`coordinator/grid_coordinator.py`): Long variants post the reverse order
only for a filled sell (only position-building buys are re-posted); the
Short branch mirrors with filled buys. -/
def should_place_reverse_order_in_scalping (grid_type : GridType)
    (filled_side : GridOrderSide) : Bool :=
  if isLongVariant grid_type then filled_side == .SELL
  else filled_side == .BUY

/-- Claim-side definition (from the wording of C2): the reverse order of a
filled order adds exposure when, for a Long-variant grid, the filled order
is a sell (its reverse is a buy), and for a Short-variant grid the filled
order is a buy (its reverse is a sell). -/
def reverse_adds_exposure (grid_type : GridType)
    (filled_side : GridOrderSide) : Bool :=
  if isLongVariant grid_type then filled_side == .SELL
  else filled_side == .BUY

/-- Coordinator state relevant to the fill handler and the position monitor.
`underscore_paused` is `_paused` (the flag read by `_on_order_filled` and
set by `pause()`/`resume()`); `underscore_resetting` is `_resetting`;
`is_paused_attr` models the *instance attribute* `is_paused`: `none` means
no attribute was ever assigned, so that name still resolves to the bound
method `is_paused()` (which is truthy); the position monitor reads and
writes this attribute, shadowing the method on first write.
`is_emergency_stopped` is likewise a dynamically created attribute. -/
structure Coordinator where
  underscore_paused : Bool
  underscore_resetting : Bool
  is_paused_attr : Option Bool
  is_emergency_stopped : Bool
  has_scalping : Bool
  scalping_active : Bool
  take_profit_order_id : Option String
  grid_type : GridType
deriving DecidableEq, Repr

/-- Truthiness of `coordinator.is_paused` as Python evaluates it: when no
instance attribute exists the lookup yields the bound method, which is
truthy; otherwise the boolean attribute value. -/
def py_truthy_is_paused : Option Bool → Bool
  | none => true
  | some b => b

/-- `GridCoordinator._is_take_profit_order_filled`: scalping must be present
and active and the filled order id must equal the current take-profit
order's id. -/
def is_take_profit_order_filled (c : Coordinator) (ev : GridOrder) : Bool :=
  c.has_scalping && c.scalping_active
    && (c.take_profit_order_id == some ev.order_id)

/-- Observable effects of one `GridCoordinator._on_order_filled` call.
`error_raised` records that the handler's body raised and control reached
the `except` clause (which calls `_handle_error`). -/
structure FillOutcome where
  dropped : Bool
  marked_filled : Bool
  tracker_recorded : Bool
  take_profit_handled : Bool
  reverse_submitted : Bool
  error_raised : Bool
deriving DecidableEq, Repr

/-- `GridCoordinator._on_order_filled` (`coordinator/grid_coordinator.py`),
at the level of its observable actions.  The `_paused` and `_resetting`
guards (lines 284-290) come first and drop the event.  A non-dropped event
then reaches line 299, `self.position_monitor.record_order_filled()` —
`PositionMonitor` (`coordinator/position_monitor.py`) defines no such
method (plain class, no `__getattr__`, and the attribute is assigned
nowhere), so this raises `AttributeError`, which the handler's `except`
routes to `_handle_error`.  Steps 1-9 of the handler — state
mark-filled, tracker record, the scalping take-profit hand-off, the
`_should_place_reverse_order_in_scalping` veto and the reverse-order
submission — are never reached. -/
def on_order_filled (c : Coordinator) (ev : GridOrder) : FillOutcome :=
  if c.underscore_paused then
    { dropped := true, marked_filled := false, tracker_recorded := false,
      take_profit_handled := false, reverse_submitted := false,
      error_raised := false }
  else if c.underscore_resetting then
    { dropped := true, marked_filled := false, tracker_recorded := false,
      take_profit_handled := false, reverse_submitted := false,
      error_raised := false }
  else
    { dropped := false, marked_filled := false, tracker_recorded := false,
      take_profit_handled := false, reverse_submitted := false,
      error_raised := true }

/-- C3: whenever `_resetting` (and likewise `_paused`) is true, the fill
handler drops the event before any processing — before even the failing
line-299 call: the order is not marked filled, the tracker is not updated,
no order is submitted, and nothing is raised. -/
theorem fill_dropped_during_reset (c : Coordinator) (ev : GridOrder)
    (h : c.underscore_resetting = true ∨ c.underscore_paused = true) :
    on_order_filled c ev
      = { dropped := true, marked_filled := false, tracker_recorded := false,
          take_profit_handled := false, reverse_submitted := false,
          error_raised := false } := by
  rcases h with h | h <;>
    · unfold on_order_filled
      cases hp : c.underscore_paused <;> simp_all

/-- Witness for C3 at a concrete resetting coordinator and a concrete fill
event. -/
theorem fill_dropped_during_reset_witness :
    on_order_filled
      { underscore_paused := false, underscore_resetting := true,
        is_paused_attr := some false, is_emergency_stopped := false,
        has_scalping := false, scalping_active := false,
        take_profit_order_id := none, grid_type := .LONG }
      { order_id := "B1", grid_id := 50, side := .BUY, price := 1049/10,
        amount := 1, status := .FILLED, filled_price := some (1049/10),
        filled_amount := some 1 }
      = { dropped := true, marked_filled := false, tracker_recorded := false,
          take_profit_handled := false, reverse_submitted := false,
          error_raised := false } :=
  fill_dropped_during_reset _ _ (Or.inl rfl)

/-- Concrete scalping-active Long coordinator for C2. -/
def coordScalpLong : Coordinator :=
  { underscore_paused := false, underscore_resetting := false,
    is_paused_attr := some false, is_emergency_stopped := false,
    has_scalping := true, scalping_active := true,
    take_profit_order_id := some "TP1", grid_type := .LONG }

/-- Concrete filled sell order (not the take-profit order) for C2. -/
def filledSellEv : GridOrder :=
  { order_id := "S1", grid_id := 51, side := .SELL, price := 105,
    amount := 1, status := .FILLED, filled_price := some 105,
    filled_amount := some 1 }

/-- C2: for every fill event arriving while scalping mode is active whose
reverse order would add exposure, the coordinator does not submit that
reverse order.  This holds in the program as staged, but degenerately: the
handler raises `AttributeError` at `grid_coordinator.py:299` (undefined
`PositionMonitor.record_order_filled`) before the veto or any submission,
so no reverse order of any kind is ever submitted through this handler
(and `_on_batch_orders_filled` is never subscribed).  The second conjunct
records that the cited veto helper itself has the opposite polarity to the
claim: `_should_place_reverse_order_in_scalping` returns True — approve
the submission — exactly for the exposure-adding fills, so the claimed
suppression is not what the veto would do if the line-299 call were
fixed. -/
theorem scalping_exposure_adding_reverse_not_submitted (c : Coordinator)
    (ev : GridOrder) (hs : c.has_scalping = true)
    (ha : c.scalping_active = true)
    (hadd : reverse_adds_exposure c.grid_type ev.side = true) :
    (on_order_filled c ev).reverse_submitted = false
    ∧ should_place_reverse_order_in_scalping c.grid_type ev.side = true := by
  constructor
  · unfold on_order_filled
    split_ifs <;> rfl
  · exact hadd

/-- Witness for C2: Long grid, scalping active, a filled sell — the
exposure-adding reverse buy is not submitted (the handler errors out at
line 299 first), even though the veto helper would approve it. -/
theorem scalping_exposure_adding_reverse_not_submitted_witness :
    (on_order_filled coordScalpLong filledSellEv).reverse_submitted = false
    ∧ should_place_reverse_order_in_scalping coordScalpLong.grid_type
        filledSellEv.side = true :=
  scalping_exposure_adding_reverse_not_submitted coordScalpLong filledSellEv
    rfl rfl rfl

/-- Effect of `_check_position_anomaly` on the coordinator's dynamic
attributes: the emergency branch executes
`coordinator.is_emergency_stopped = True` and `coordinator.is_paused =
True` (the latter creates/overwrites the instance attribute that shadows
the `is_paused()` method). -/
def apply_anomaly_to_coordinator (c : Coordinator) (r : AnomalyResult) :
    Coordinator :=
  if r.tripped then
    { c with is_emergency_stopped := true, is_paused_attr := some true }
  else c

/-- State of `PositionMonitor` (`coordinator/position_monitor.py`) relevant
to the REST failure-protection logic: the coordinator reference, the
consecutive-failure counter `_rest_failure_count`, `_rest_is_available`,
and the anomaly-detection state. -/
structure MonitorState where
  coord : Coordinator
  rest_failure_count : ℕ
  rest_is_available : Bool
  anomaly : AnomalyState
deriving DecidableEq, Repr

/-- The resume step at the end of a successful
`_query_and_update_position`: `if hasattr(coordinator, 'is_paused') and
coordinator.is_paused: coordinator.is_paused = False`.  `hasattr` is always
true (the method exists), so the guard is the truthiness of the lookup. -/
def rest_resume_if_paused (m : MonitorState) : MonitorState :=
  if py_truthy_is_paused m.coord.is_paused_attr then
    { m with coord := { m.coord with is_paused_attr := some false } }
  else m

/-- `PositionMonitor._handle_rest_failure`: mark REST unavailable; once the
consecutive-failure counter reaches `_rest_max_failures` (3), execute
`coordinator.is_paused = True` — but only under the guard
`not hasattr(coordinator, 'is_paused') or not coordinator.is_paused`, and
`hasattr` is always true while the bound method is truthy. -/
def handle_rest_failure (m : MonitorState) : MonitorState :=
  if m.rest_failure_count ≥ 3 then
    if py_truthy_is_paused m.coord.is_paused_attr then
      { m with rest_is_available := false }
    else
      { m with rest_is_available := false,
               coord := { m.coord with is_paused_attr := some true } }
  else { m with rest_is_available := false }

/-- A failed or timed-out REST poll in `_query_and_update_position`: the
failure counter is incremented and `_handle_rest_failure` runs. -/
def query_position_failure (m : MonitorState) : MonitorState :=
  handle_rest_failure { m with rest_failure_count := m.rest_failure_count + 1 }

/-- A successful REST poll in `_query_and_update_position` (contract path):
for a zero position, reset the cached size; otherwise run the anomaly check
(unless this is the initial sync) and cache the new size; in both cases
clear the failure counter, mark REST available, and clear the
`is_paused` attribute if its lookup is truthy. -/
def query_position_success (cfg : GridConfig) (m : MonitorState)
    (is_initial : Bool) (position_qty : ℚ) : MonitorState :=
  if position_qty = 0 then
    rest_resume_if_paused
      { m with anomaly := { m.anomaly with last_position := 0 },
               rest_failure_count := 0, rest_is_available := true }
  else
    let m1 :=
      if is_initial then m
      else
        let r := check_position_anomaly cfg m.anomaly position_qty
        { m with coord := apply_anomaly_to_coordinator m.coord r,
                 anomaly := { m.anomaly with initial_phase := r.initial_phase } }
    rest_resume_if_paused
      { m1 with anomaly := { m1.anomaly with last_position := position_qty },
                rest_failure_count := 0, rest_is_available := true }

/-- Freshly constructed coordinator and monitor: `_paused = False`,
`_resetting = False`, and no `is_paused` instance attribute yet (only the
method). -/
def monitorInit : MonitorState :=
  { coord := { underscore_paused := false, underscore_resetting := false,
               is_paused_attr := none, is_emergency_stopped := false,
               has_scalping := false, scalping_active := false,
               take_profit_order_id := none, grid_type := .LONG },
    rest_failure_count := 0, rest_is_available := true,
    anomaly := { initial_phase := true, elapsed := 0, phase_duration := 60,
                 last_position := 0 } }

/-- One successful poll, then three consecutive failed polls. -/
def monitorAfterThreeFailures : MonitorState :=
  query_position_failure (query_position_failure (query_position_failure
    (query_position_success cfgGeom monitorInit false 0)))

/-- C1 divergence, evaluated on the model.  After three consecutive failed
REST polls the monitor does assign `coordinator.is_paused = True`, but that
assignment only shadows the `is_paused()` method with an attribute the fill
handler never reads: `_on_order_filled` checks `_paused`, which stays
False, so a subsequent fill event is *not* dropped by the paused check —
contradicting the claim's parenthetical — and instead enters the handler
body, where it dies with the `AttributeError` of the undefined
`position_monitor.record_order_filled()` at `grid_coordinator.py:299`
(error counter path; auto-pause only after 5 consecutive errors).
Moreover, before the first successful poll the guard
`not coordinator.is_paused` sees the truthy bound method, so three
failures then set nothing at all; and the attribute (not the real pause)
is cleared again by the first successful poll. -/
theorem rest_failure_pause_divergence :
    monitorAfterThreeFailures.coord.is_paused_attr = some true
    ∧ monitorAfterThreeFailures.coord.underscore_paused = false
    ∧ (on_order_filled monitorAfterThreeFailures.coord
        { order_id := "B7", grid_id := 40, side := .BUY, price := 104,
          amount := 1, status := .FILLED, filled_price := some 104,
          filled_amount := some 1 }).dropped = false
    ∧ (on_order_filled monitorAfterThreeFailures.coord
        { order_id := "B7", grid_id := 40, side := .BUY, price := 104,
          amount := 1, status := .FILLED, filled_price := some 104,
          filled_amount := some 1 }).error_raised = true
    ∧ (query_position_failure (query_position_failure
        (query_position_failure monitorInit))).coord.is_paused_attr = none
    ∧ (query_position_success cfgGeom monitorAfterThreeFailures false 0
        ).coord.is_paused_attr = some false := by
  refine ⟨rfl, rfl, rfl, rfl, rfl, rfl⟩

/-- State of `PositionTrackerImpl`
(`implementations/position_tracker_impl.py`): position, cost, average cost,
realized P&L, fees and the buy/sell counters.  (The bounded trade-history
ring and the cycle counter are omitted: no verified quantity reads them.) -/
structure PositionTracker where
  current_position : ℚ
  position_cost : ℚ
  average_cost : ℚ
  realized_pnl : ℚ
  total_fees : ℚ
  buy_count : ℕ
  sell_count : ℕ
deriving DecidableEq, Repr

/-- The freshly initialised tracker. -/
def PositionTracker.init : PositionTracker :=
  { current_position := 0, position_cost := 0, average_cost := 0,
    realized_pnl := 0, total_fees := 0, buy_count := 0, sell_count := 0 }

/-- `PositionTrackerImpl.record_filled_order`: skip non-filled orders; a buy
adds `price * amount` to cost and `amount` to the position; a sell with
positive position realises `(sell_price - avg) * amount` of P&L and reduces
cost and position; a sell with non-positive position is a short-building
leg with zero realised P&L; then the average cost and the fee total are
recomputed.  `filled_price or price` / `filled_amount or amount` follow
Python truthiness (zero falls through). -/
def record_filled_order (fee_rate : ℚ) (t : PositionTracker)
    (o : GridOrder) : PositionTracker :=
  if !o.is_filled then t
  else
    let filled_price := pyOrDecimal o.filled_price o.price
    let filled_amount := pyOrDecimal o.filled_amount o.amount
    let t1 : PositionTracker :=
      if o.is_buy_order then
        { t with position_cost := t.position_cost + filled_price * filled_amount,
                 current_position := t.current_position + filled_amount,
                 buy_count := t.buy_count + 1 }
      else
        if 0 < t.current_position then
          let avg_cost := t.position_cost / t.current_position
          let sell_cost := avg_cost * filled_amount
          let sell_value := filled_price * filled_amount
          let profit := sell_value - sell_cost
          { t with realized_pnl := t.realized_pnl + profit,
                   position_cost := t.position_cost - sell_cost,
                   current_position := t.current_position - filled_amount,
                   sell_count := t.sell_count + 1 }
        else
          { t with position_cost := t.position_cost - filled_price * filled_amount,
                   current_position := t.current_position - filled_amount,
                   sell_count := t.sell_count + 1 }
    let t2 : PositionTracker :=
      if t1.current_position = 0 then
        { t1 with average_cost := 0 }
      else
        { t1 with average_cost := t1.position_cost / |t1.current_position| }
    { t2 with total_fees := t2.total_fees + filled_price * filled_amount * fee_rate }

/-- In-memory registry of active orders (`GridState`).  Modelled from the
spec: the grid-state model file is not under the sources; §3/§4.2 give the
active-order mapping and its operations. -/
structure GridStateModel where
  active_orders : List GridOrder
deriving DecidableEq, Repr

/-- `GridState.mark_order_filled(id, price, amount)`.  Modelled from the
spec: the grid-state model file is not under the sources; §4.2 lists the
operation and §3 gives the lifecycle "`Filled` on fill event → removed
from active set".  The spec states no failure behaviour, so an unknown id
leaves the state unchanged. -/
def mark_order_filled (st : GridStateModel) (order_id : String)
    (_price _amount : ℚ) : GridStateModel :=
  { st with active_orders :=
      st.active_orders.filter (fun o => o.order_id != order_id) }

/-- The fill-handling path of `_on_order_filled` for one event: step 1 marks
the order filled in the grid state, step 2 records it in the tracker
(`grid_coordinator.py`, steps 1-2 of the handler). -/
def apply_fill_path (fee_rate : ℚ) (st : GridStateModel)
    (t : PositionTracker) (ev : GridOrder) :
    GridStateModel × PositionTracker :=
  (mark_order_filled st ev.order_id
      (pyOrDecimal ev.filled_price ev.price)
      (pyOrDecimal ev.filled_amount ev.amount),
   record_filled_order fee_rate t ev)

/-- The concrete fill events of the C4 counterexample: a buy of 2 at 100,
then a sell of 1 at 110 delivered twice. -/
def buyEv2at100 : GridOrder :=
  { order_id := "B1", grid_id := 50, side := .BUY, price := 100,
    amount := 2, status := .FILLED, filled_price := some 100,
    filled_amount := some 2 }

/-- The duplicated sell fill event. -/
def sellEv1at110 : GridOrder :=
  { order_id := "S1", grid_id := 51, side := .SELL, price := 110,
    amount := 1, status := .FILLED, filled_price := some 110,
    filled_amount := some 1 }

/-- Tracker after the buy fill: position 2 at average cost 100. -/
def trackerAfterBuy : PositionTracker :=
  record_filled_order 0 PositionTracker.init buyEv2at100

/-- Grid state holding only the resting sell order `S1`. -/
def stateWithSell : GridStateModel :=
  { active_orders := [sellEv1at110] }

/-- Counterexample to C4: starting from position 2 at cost 100, applying the
same sell fill (1 at 110) twice through the fill-handling path yields
realized P&L 20, while applying it once yields 10 — the second application
double-counts, because `record_filled_order` re-executes the sell branch
(the event's order object still reports `is_filled()`), and
`mark_order_filled` on the already-removed id cannot stop it. -/
theorem duplicate_fill_double_counts :
    (apply_fill_path 0
        (apply_fill_path 0 stateWithSell trackerAfterBuy sellEv1at110).1
        (apply_fill_path 0 stateWithSell trackerAfterBuy sellEv1at110).2
        sellEv1at110).2.realized_pnl = 20
    ∧ (apply_fill_path 0 stateWithSell trackerAfterBuy sellEv1at110
        ).2.realized_pnl = 10 := by
  have hside : (GridOrderSide.SELL = GridOrderSide.BUY) ↔ False :=
    ⟨fun h => GridOrderSide.noConfusion h, False.elim⟩
  constructor <;>
    norm_num [apply_fill_path, record_filled_order, mark_order_filled,
      trackerAfterBuy, sellEv1at110, buyEv2at100, stateWithSell,
      PositionTracker.init, pyOrDecimal, GridOrder.is_filled,
      GridOrder.is_buy_order, hside]

theorem side_sell_ne_buy : (GridOrderSide.SELL = GridOrderSide.BUY) ↔ False :=
  ⟨fun h => GridOrderSide.noConfusion h, False.elim⟩

theorem record_filled_sell_effect (fee_rate : ℚ) (t : PositionTracker)
    (ev : GridOrder) (hfill : ev.is_filled = true)
    (hsell : ev.is_buy_order = false) (hpos : 0 < t.current_position) :
    (record_filled_order fee_rate t ev).realized_pnl
        = t.realized_pnl
          + (pyOrDecimal ev.filled_price ev.price
              - t.position_cost / t.current_position)
            * pyOrDecimal ev.filled_amount ev.amount
    ∧ (record_filled_order fee_rate t ev).position_cost
        = t.position_cost - t.position_cost / t.current_position
            * pyOrDecimal ev.filled_amount ev.amount
    ∧ (record_filled_order fee_rate t ev).current_position
        = t.current_position - pyOrDecimal ev.filled_amount ev.amount := by
  unfold record_filled_order
  simp only [hfill, hsell, Bool.not_true, Bool.false_eq_true, if_false,
    if_pos hpos]
  split_ifs <;> constructor <;> try constructor
  all_goals ring

/-- C4 amended: the fill-handling path does not deduplicate fill events.
The first application of a sell fill (with positive position) realises
`(fill_price - avg) * amount`; re-applying the *same* event, while the
position stays positive, adds the fill's P&L contribution again, computed
at the updated average cost — so realized P&L is double-counted whenever
the fill price differs from that average.  (Duplicate buy fills leave
realized P&L unchanged but double the tracked position.) -/
theorem duplicate_fill_not_idempotent (fee_rate : ℚ) (t : PositionTracker)
    (ev : GridOrder) (hfill : ev.is_filled = true)
    (hsell : ev.is_buy_order = false) (hpos0 : 0 < t.current_position)
    (hpos1 : 0 < (record_filled_order fee_rate t ev).current_position) :
    (record_filled_order fee_rate t ev).realized_pnl
        = t.realized_pnl
          + (pyOrDecimal ev.filled_price ev.price
              - t.position_cost / t.current_position)
            * pyOrDecimal ev.filled_amount ev.amount
    ∧ (record_filled_order fee_rate
          (record_filled_order fee_rate t ev) ev).realized_pnl
        = (record_filled_order fee_rate t ev).realized_pnl
          + (pyOrDecimal ev.filled_price ev.price
              - (record_filled_order fee_rate t ev).position_cost
                / (record_filled_order fee_rate t ev).current_position)
            * pyOrDecimal ev.filled_amount ev.amount :=
  ⟨(record_filled_sell_effect fee_rate t ev hfill hsell hpos0).1,
   (record_filled_sell_effect fee_rate (record_filled_order fee_rate t ev)
      ev hfill hsell hpos1).1⟩

/-- Witness for the amended C4 at the concrete duplicated sell fill. -/
theorem duplicate_fill_not_idempotent_witness :
    (record_filled_order 0
        (record_filled_order 0 trackerAfterBuy sellEv1at110)
        sellEv1at110).realized_pnl
      = (record_filled_order 0 trackerAfterBuy sellEv1at110).realized_pnl
        + (pyOrDecimal sellEv1at110.filled_price sellEv1at110.price
            - (record_filled_order 0 trackerAfterBuy sellEv1at110).position_cost
              / (record_filled_order 0 trackerAfterBuy
                  sellEv1at110).current_position)
          * pyOrDecimal sellEv1at110.filled_amount sellEv1at110.amount := by
  refine (duplicate_fill_not_idempotent 0 trackerAfterBuy sellEv1at110
    rfl rfl ?_ ?_).2
  · norm_num [trackerAfterBuy, record_filled_order, buyEv2at100,
      PositionTracker.init, pyOrDecimal, GridOrder.is_filled,
      GridOrder.is_buy_order]
  · norm_num [trackerAfterBuy, record_filled_order, buyEv2at100,
      sellEv1at110, PositionTracker.init, pyOrDecimal, GridOrder.is_filled,
      GridOrder.is_buy_order, side_sell_ne_buy]

/-- One key of the engine's `_pending_orders` dict
(`implementations/grid_engine_impl.py`).  `obj` is the Python object
identity of the stored `GridOrder` — two keys (client id and venue id) may
point to the same object. -/
structure PendingEntry where
  key : String
  obj : ℕ
  ord : GridOrder
deriving DecidableEq, Repr

/-- Engine state relevant to cancellation: the pending-orders registry and
the `_expected_cancellations` set (a set of order-id strings). -/
structure EngineState where
  pending : List PendingEntry
  expected_cancellations : List String
deriving DecidableEq, Repr

/-- Dict lookup `self._pending_orders[key]`. -/
def pending_lookup (e : EngineState) (key : String) : Option PendingEntry :=
  e.pending.find? (fun p => p.key == key)

/-- Membership in the `_expected_cancellations` set. -/
def expected_mem (e : EngineState) (order_id : String) : Bool :=
  e.expected_cancellations.contains order_id

/-- `set.add`: idempotent insertion. -/
def expected_add (e : EngineState) (order_id : String) : EngineState :=
  if expected_mem e order_id then e
  else { e with expected_cancellations := order_id :: e.expected_cancellations }

/-- `set.remove`: drop the id from the set. -/
def expected_remove (e : EngineState) (order_id : String) : EngineState :=
  { e with expected_cancellations :=
      e.expected_cancellations.filter (fun x => x != order_id) }

/-- `GridEngineImpl._remove_order_from_pending`: find the object stored
under the key and delete every key that points to the same object
(the Lighter dual-key case). -/
def remove_order_from_pending (e : EngineState) (order_id : String) :
    EngineState :=
  match pending_lookup e order_id with
  | none => e
  | some p => { e with pending := e.pending.filter (fun q => q.obj != p.obj) }

/-- Result of `GridEngineImpl.cancel_order`: the new engine state and the
returned boolean. -/
structure CancelResult where
  engine : EngineState
  success : Bool
deriving DecidableEq, Repr

/-- `GridEngineImpl.cancel_order`: first add the id to
`_expected_cancellations`, then issue the venue cancel (`venue_ok` models
whether `exchange.cancel_order` succeeds or raises); on success remove the
order from the pending registry; the surrounding `try/except` swallows any
exception and returns False, leaving the id in the set and the pending
registry untouched. -/
def cancel_order (e : EngineState) (order_id : String) (venue_ok : Bool) :
    CancelResult :=
  let e1 := expected_add e order_id
  if venue_ok then
    if (pending_lookup e1 order_id).isSome then
      { engine := remove_order_from_pending e1 order_id, success := true }
    else
      { engine := e1, success := true }
  else
    { engine := e1, success := false }

/-- Result of handling one cancel event in `_on_order_update`: the new
engine state and the healing order submitted through `place_order`, if
any. -/
structure CancelEventResult where
  engine : EngineState
  reposted : Option GridOrder
deriving DecidableEq, Repr

/-- The dict-format (Backpack) `Cancelled` branch of
`GridEngineImpl._on_order_update`: unknown ids are ignored; the order is
removed from the pending dict under that key; an id in
`_expected_cancellations` is swallowed (and removed from the set); any
other id is treated as a user cancellation and an identical order (same
grid id, side, price, amount) is re-submitted to heal the grid. -/
def on_cancel_event_dict (e : EngineState) (order_id : String) :
    CancelEventResult :=
  match pending_lookup e order_id with
  | none => { engine := e, reposted := none }
  | some p =>
    let e1 : EngineState :=
      { e with pending := e.pending.filter (fun q => q.key != order_id) }
    if expected_mem e1 order_id then
      { engine := expected_remove e1 order_id, reposted := none }
    else
      { engine := e1,
        reposted := some { order_id := "", grid_id := p.ord.grid_id,
                           side := p.ord.side, price := p.ord.price,
                           amount := p.ord.amount, status := .PENDING,
                           filled_price := none, filled_amount := none } }

/-- The OrderData-format (Hyperliquid/Lighter) `CANCELLED` branch of
`GridEngineImpl._on_order_update`: the order is looked up by client id
first, then by order id (unknown ids are ignored); the key `order_id` is
deleted from the pending dict if present; an id in
`_expected_cancellations` is swallowed (and removed from the set); an
unexpected cancel is only logged (`TODO: 可能需要重新挂单`) — nothing is
re-submitted. -/
def on_cancel_event_orderdata (e : EngineState) (order_id : String)
    (client_id : Option String) : CancelEventResult :=
  let found : Option PendingEntry :=
    match client_id with
    | some c =>
      match pending_lookup e c with
      | some p => some p
      | none => pending_lookup e order_id
    | none => pending_lookup e order_id
  match found with
  | none => { engine := e, reposted := none }
  | some _ =>
    let e1 : EngineState :=
      if (pending_lookup e order_id).isSome then
        { e with pending := e.pending.filter (fun q => q.key != order_id) }
      else e
    if expected_mem e1 order_id then
      { engine := expected_remove e1 order_id, reposted := none }
    else
      { engine := e1, reposted := none }

theorem expected_mem_add_self (e : EngineState) (id : String) :
    expected_mem (expected_add e id) id = true := by
  unfold expected_add
  split_ifs with h
  · exact h
  · simp [expected_mem, List.contains_cons]

theorem expected_add_pending (e : EngineState) (id : String) :
    (expected_add e id).pending = e.pending := by
  unfold expected_add
  split_ifs <;> rfl

theorem expected_mem_remove_self (e : EngineState) (id : String) :
    expected_mem (expected_remove e id) id = false := by
  simp only [expected_mem, expected_remove]
  rw [Bool.eq_false_iff]
  intro h
  have hmem := List.mem_of_elem_eq_true h
  have := List.of_mem_filter hmem
  simp at this

theorem on_cancel_event_orderdata_no_repost (e : EngineState) (id : String)
    (cid : Option String) :
    (on_cancel_event_orderdata e id cid).reposted = none := by
  unfold on_cancel_event_orderdata
  dsimp only
  repeat' split
  all_goals rfl

/-- A resting buy order at Grid 30 (the spec's S2 setup). -/
def ordAtGrid30 : GridOrder :=
  { order_id := "O30", grid_id := 30, side := .BUY, price := 1029/10,
    amount := 1, status := .OPEN, filled_price := none,
    filled_amount := none }

/-- Engine tracking only `O30`, with an empty expected-cancellations set. -/
def engineWithO30 : EngineState :=
  { pending := [{ key := "O30", obj := 0, ord := ordAtGrid30 }],
    expected_cancellations := [] }

/-- Counterexample to C9: a cancel event for `O30` — an id *not* in the
expected-cancellations set — arriving in the OrderData format
(Hyperliquid/Lighter branch of `_on_order_update`) does not re-submit any
order: that branch only logs the unexpected cancellation (`TODO` in the
source); the heal re-post exists only in the dict-format (Backpack)
branch. -/
theorem unexpected_cancel_no_heal_counterexample :
    expected_mem engineWithO30 "O30" = false
    ∧ (pending_lookup engineWithO30 "O30").isSome = true
    ∧ (on_cancel_event_orderdata engineWithO30 "O30" none).reposted = none := by
  refine ⟨rfl, rfl, rfl⟩

/-- C9 amended: cancel events for ids in the expected-cancellations set are
swallowed in both event formats (the id is removed from the set and
nothing is submitted); the heal re-post of an identical order (same grid
id, side, price, amount) happens only in the dict-format branch for ids
not in the set; the OrderData-format branch never re-submits anything. -/
theorem cancel_event_heal_semantics (e : EngineState) (id : String)
    (cid : Option String) (p : PendingEntry)
    (hp : pending_lookup e id = some p) :
    (expected_mem e id = true →
      (on_cancel_event_dict e id).reposted = none
      ∧ expected_mem (on_cancel_event_dict e id).engine id = false
      ∧ (on_cancel_event_orderdata e id cid).reposted = none)
    ∧ (expected_mem e id = false →
      (on_cancel_event_dict e id).reposted
        = some { order_id := "", grid_id := p.ord.grid_id,
                 side := p.ord.side, price := p.ord.price,
                 amount := p.ord.amount, status := .PENDING,
                 filled_price := none, filled_amount := none })
    ∧ (on_cancel_event_orderdata e id cid).reposted = none := by
  have hmem : ∀ l : List PendingEntry,
      expected_mem { pending := l,
                     expected_cancellations := e.expected_cancellations } id
        = expected_mem e id := by
    intro l
    rfl
  refine ⟨?_, ?_, on_cancel_event_orderdata_no_repost e id cid⟩
  · intro hexp
    unfold on_cancel_event_dict
    rw [hp]
    dsimp only
    rw [hmem, hexp]
    simp only [eq_self_iff_true, if_true, true_and]
    exact ⟨expected_mem_remove_self _ id,
      on_cancel_event_orderdata_no_repost e id cid⟩
  · intro hexp
    unfold on_cancel_event_dict
    rw [hp]
    dsimp only
    rw [hmem, hexp]
    simp only [Bool.false_eq_true, if_false]

/-- The engine of the witness with `O30` already in the
expected-cancellations set. -/
def engineExpectedO30 : EngineState :=
  { pending := [{ key := "O30", obj := 0, ord := ordAtGrid30 }],
    expected_cancellations := ["O30"] }

/-- Witness for the amended C9: the dict-format cancel event for the
unexpected `O30` re-posts an identical buy at Grid 30, and the same event
with `O30` in the expected set is swallowed. -/
theorem cancel_event_heal_semantics_witness :
    (on_cancel_event_dict engineWithO30 "O30").reposted
      = some { order_id := "", grid_id := 30, side := .BUY,
               price := 1029/10, amount := 1, status := .PENDING,
               filled_price := none, filled_amount := none }
    ∧ (on_cancel_event_dict engineExpectedO30 "O30").reposted = none := by
  have h1 := cancel_event_heal_semantics engineWithO30 "O30" none
    { key := "O30", obj := 0, ord := ordAtGrid30 } rfl
  have h2 := cancel_event_heal_semantics engineExpectedO30 "O30" none
    { key := "O30", obj := 0, ord := ordAtGrid30 } rfl
  exact ⟨h1.2.1 rfl, (h2.1 rfl).1⟩

theorem remove_pending_keeps_expected (e : EngineState) (id x : String) :
    expected_mem (remove_order_from_pending e id) x = expected_mem e x := by
  unfold remove_order_from_pending
  split <;> rfl

/-- C10: `cancel_order` adds the id to the expected-cancellations set before
issuing the venue cancel, and returns the venue outcome as a boolean
instead of raising (the body is wrapped in `try/except`, which is totality
of this model).  After a failed venue cancel the id stays in the set and
the pending registry is untouched, so a later cancel event for that order
— in either event format — is swallowed rather than healed. -/
theorem cancel_order_marks_expected (e : EngineState) (id : String) :
    (∀ ok : Bool, (cancel_order e id ok).success = ok
      ∧ expected_mem (cancel_order e id ok).engine id = true)
    ∧ (cancel_order e id false).engine.pending = e.pending
    ∧ (∀ cid : Option String,
        (on_cancel_event_orderdata (cancel_order e id false).engine id
          cid).reposted = none)
    ∧ (on_cancel_event_dict (cancel_order e id false).engine id).reposted
        = none := by
  have hAdd : expected_mem (cancel_order e id false).engine id = true := by
    unfold cancel_order
    exact expected_mem_add_self e id
  refine ⟨?_, ?_, ?_, ?_⟩
  · intro ok
    cases ok
    · exact ⟨rfl, hAdd⟩
    · unfold cancel_order
      dsimp only
      rw [if_pos rfl]
      constructor
      · split <;> rfl
      · split
        · rw [remove_pending_keeps_expected]
          exact expected_mem_add_self e id
        · exact expected_mem_add_self e id
  · unfold cancel_order
    dsimp only
    exact expected_add_pending e id
  · intro cid
    exact on_cancel_event_orderdata_no_repost _ id cid
  · cases hl : pending_lookup (cancel_order e id false).engine id with
    | none =>
      unfold on_cancel_event_dict
      rw [hl]
    | some p =>
      unfold on_cancel_event_dict
      rw [hl]
      dsimp only
      rw [if_pos (show expected_mem
        { pending := List.filter (fun q => q.key != id)
            (cancel_order e id false).engine.pending,
          expected_cancellations :=
            (cancel_order e id false).engine.expected_cancellations } id
          = true from hAdd)]
